import Mathlib

/-!
Verification of the MLogger build-orchestration scripts
(`scripts/compile/build.py` and `scripts/compile/platforms/*.py`).

The scripts are shallowly embedded: the filesystem is an explicit state
(association lists of paths to file contents and directory content ids,
plus sets of paths whose delete/rename/copy operations raise OSError),
subprocess results are explicit inputs, and Python exceptions become
`Except` results.  Python string operations (`in`, `startswith`,
`lower`, `strip`, the two `re` patterns used by the scripts) are
re-implemented over `List Char`.
-/

/-! ## Python string primitives -/

/-- `sub ∈ s` for char lists: Python's `sub in s` substring test. -/
def listContainsSub (sub : List Char) : List Char → Bool
  | [] => sub.isEmpty
  | s@(_ :: t) => sub.isPrefixOf s || listContainsSub sub t

/-- Python `sub in s` on strings. -/
def strContains (s sub : String) : Bool :=
  listContainsSub sub.data s.data

/-- Python `s.startswith(pre)`. -/
def strStartsWith (s pre : String) : Bool :=
  pre.data.isPrefixOf s.data

/-- Python `s.lower()` (ASCII letters, which is all the scripts compare). -/
def strLower (s : String) : String :=
  String.mk (s.data.map Char.toLower)

/-- The characters Python's `str.strip()` removes. -/
def isPyWhitespace (c : Char) : Bool :=
  c = ' ' || c = '\t' || c = '\n' || c = '\r' || c = '\x0b' || c = '\x0c'

/-- Python `s.strip()` on a char list. -/
def stripChars (l : List Char) : List Char :=
  ((l.dropWhile isPyWhitespace).reverse.dropWhile isPyWhitespace).reverse

/-- Python truthiness for an optional string argument
(`kwargs.get(k)` followed by `if value:`): `None` and `""` are falsy. -/
def pyTruthy : Option String → Option String
  | none => none
  | some s => if s = "" then none else some s

/-! ## Association-list primitives for the filesystem state -/

/-- First value stored under a key. -/
def lookupStr {β : Type} (k : String) : List (String × β) → Option β
  | [] => none
  | e :: t => if e.1 = k then some e.2 else lookupStr k t

/-- Boolean membership in a list of paths. -/
def strIn (p : String) : List String → Bool
  | [] => false
  | a :: t => a = p || strIn p t

/-- Drop every entry stored under a key. -/
def eraseKey {β : Type} (k : String) : List (String × β) → List (String × β)
  | [] => []
  | e :: t => if e.1 = k then eraseKey k t else e :: eraseKey k t

/-! ## Filesystem model

`files` maps a path to its text content; `dirs` maps a path to an
abstract content id (so that destruction of a directory's contents is
observable).  The `locked…`/`renameFails`/`copyFails` sets model which
OS operations raise `OSError`/`PermissionError` in the current
environment; they are read-only during a run. -/

structure FS where
  files : List (String × String)
  dirs : List (String × Nat)
  lockedFiles : List String
  lockedDirs : List String
  renameFails : List String
  copyFails : List String
deriving DecidableEq

def FS.fileExists (fs : FS) (p : String) : Bool :=
  (lookupStr p fs.files).isSome

def FS.dirExists (fs : FS) (p : String) : Bool :=
  (lookupStr p fs.dirs).isSome

def FS.removeFile (fs : FS) (p : String) : FS :=
  { fs with files := eraseKey p fs.files }

def FS.removeDir (fs : FS) (p : String) : FS :=
  { fs with dirs := eraseKey p fs.dirs }

/-- `Path.rename` of a file (success case); the destination is overwritten. -/
def FS.renameFile (fs : FS) (src dst : String) : FS :=
  match lookupStr src fs.files with
  | none => fs
  | some c => { fs with files := (dst, c) :: eraseKey dst (eraseKey src fs.files) }

/-- `Path.rename` of a directory (success case). -/
def FS.renameDir (fs : FS) (src dst : String) : FS :=
  match lookupStr src fs.dirs with
  | none => fs
  | some i => { fs with dirs := (dst, i) :: eraseKey dst (eraseKey src fs.dirs) }

def FS.writeFile (fs : FS) (p content : String) : FS :=
  { fs with files := (p, content) :: eraseKey p fs.files }

/-- `Path.mkdir(parents=True, exist_ok=True)`. -/
def FS.mkdir (fs : FS) (p : String) : FS :=
  if fs.dirExists p then fs else { fs with dirs := (p, 0) :: fs.dirs }

/-! ## `_remove_file_with_retry` / `_remove_directory_with_retry`
(`build.py` lines 99-139).

The result records, besides the final filesystem and the returned bool,
how many loop iterations ran and how many `time.sleep` calls happened,
so that "first attempt, no delay" is statable. -/

structure RmResult where
  fs : FS
  ok : Bool
  attempts : Nat
  sleeps : Nat
deriving DecidableEq

/-- Body of the retry loop of `_remove_file_with_retry`; `remaining` is
`max_retries - attempt`.  `unlink` raises exactly when the path is in
`lockedFiles`; on the last attempt the fallback renames the file to
`<path>.old` (Python's `with_suffix(suffix + ".old")`), which raises
exactly when the path is in `renameFails`. -/
def removeFileGo (fs : FS) (p : String) : Nat → RmResult
  | 0 => ⟨fs, false, 0, 0⟩
  | r + 1 =>
    if fs.fileExists p then
      if strIn p fs.lockedFiles then
        if r = 0 then
          if strIn p fs.renameFails then ⟨fs, false, 1, 0⟩
          else ⟨fs.renameFile p (p ++ ".old"), true, 1, 0⟩
        else
          let res := removeFileGo fs p r
          ⟨res.fs, res.ok, res.attempts + 1, res.sleeps + 1⟩
      else ⟨fs.removeFile p, true, 1, 0⟩
    else ⟨fs, true, 1, 0⟩

def removeFileWithRetry (fs : FS) (p : String) (maxRetries : Nat) : RmResult :=
  removeFileGo fs p maxRetries

/-- Body of the retry loop of `_remove_directory_with_retry`.  The
last-attempt fallback first removes a pre-existing `<name>.old` backup
directory (`shutil.rmtree`, raising when the backup is locked) and then
renames the directory aside. -/
def removeDirGo (fs : FS) (p : String) : Nat → RmResult
  | 0 => ⟨fs, false, 0, 0⟩
  | r + 1 =>
    if fs.dirExists p then
      if strIn p fs.lockedDirs then
        if r = 0 then
          if fs.dirExists (p ++ ".old") then
            if strIn (p ++ ".old") fs.lockedDirs then ⟨fs, false, 1, 0⟩
            else
              let fs2 := fs.removeDir (p ++ ".old")
              if strIn p fs.renameFails then ⟨fs2, false, 1, 0⟩
              else ⟨fs2.renameDir p (p ++ ".old"), true, 1, 0⟩
          else
            if strIn p fs.renameFails then ⟨fs, false, 1, 0⟩
            else ⟨fs.renameDir p (p ++ ".old"), true, 1, 0⟩
        else
          let res := removeDirGo fs p r
          ⟨res.fs, res.ok, res.attempts + 1, res.sleeps + 1⟩
      else ⟨fs.removeDir p, true, 1, 0⟩
    else ⟨fs, true, 1, 0⟩

def removeDirWithRetry (fs : FS) (p : String) (maxRetries : Nat) : RmResult :=
  removeDirGo fs p maxRetries

/-! ## Cache-generator parsing
(`build.py` lines 149-154: `re.search(r"CMAKE_GENERATOR:INTERNAL=(.+)", content)`
followed by `.group(1).strip()`). -/

/-- The fixed key the cache file is scanned for. -/
def generatorKey : List Char := "CMAKE_GENERATOR:INTERNAL=".data

/-- The run of non-newline characters starting here (what `(.+)` captures,
greedily, since `.` does not match `\n`). -/
def takeLine : List Char → List Char
  | [] => []
  | c :: t => if c = '\n' then [] else c :: takeLine t

/-- `re.search`: scan left to right for a position where the key is
followed by at least one non-newline character (the `(.+)` group);
positions where the group would be empty are skipped, as the regex
engine moves on to later occurrences. -/
def searchGeneratorValue : List Char → Option (List Char)
  | [] => none
  | s@(_ :: t) =>
    if generatorKey.isPrefixOf s then
      let rest := takeLine (s.drop generatorKey.length)
      if rest.isEmpty then searchGeneratorValue t else some rest
    else searchGeneratorValue t

/-- The generator recorded in a cache file's content, if any
(`None` when the pattern does not match); the captured group is
stripped as in the source. -/
def parseCachedGenerator (content : String) : Option String :=
  (searchGeneratorValue content.data).map (fun l => String.mk (stripChars l))

/-! ## `_clean_cmake_cache_files` and `check_and_clean_cmake_cache`
(`build.py` lines 142-184). -/

def cmakeCachePath (buildDir : String) : String := buildDir ++ "/CMakeCache.txt"

def cmakeFilesPath (buildDir : String) : String := buildDir ++ "/CMakeFiles"

/-- `_clean_cmake_cache_files`: remove the cache file (3 retries) then the
`CMakeFiles` directory (3 retries); returns both success flags. -/
def clean_cmake_cache_files (fs : FS) (buildDir : String) : FS × Bool × Bool :=
  let r1 := removeFileWithRetry fs (cmakeCachePath buildDir) 3
  let r2 := removeDirWithRetry r1.fs (cmakeFilesPath buildDir) 3
  (r2.fs, r1.ok, r2.ok)

/-- `check_and_clean_cmake_cache`: no cache file → `False`; a cache file
whose recorded generator is absent or differs from `currentGenerator` →
clean and return `True`; matching generator → `False`, untouched. -/
def check_and_clean_cmake_cache (fs : FS) (buildDir currentGenerator : String) :
    FS × Bool :=
  match lookupStr (cmakeCachePath buildDir) fs.files with
  | none => (fs, false)
  | some content =>
    match parseCachedGenerator content with
    | some g =>
      if g = currentGenerator then (fs, false)
      else ((clean_cmake_cache_files fs buildDir).1, true)
    | none => ((clean_cmake_cache_files fs buildDir).1, true)

/-! ## The cache-handling part of `configure_cmake`
(`build.py` lines 200-216). -/

/-- The generator extracted from the computed cmake argument list:
the argument following the first `"-G"` (`build.py` lines 201-205). -/
def extract_generator : List String → Option String
  | [] => none
  | [_] => none
  | a :: b :: t => if a = "-G" then some b else extract_generator (b :: t)

/-- Lines 207-216 of `configure_cmake`: when the argument list names a
(truthy) generator, either force-clean (when `clean` is set and the cache
file or intermediate directory exists) or run the generator-mismatch
check; with no generator in the arguments nothing is cleaned at all. -/
def configure_clean_step (fs : FS) (buildDir : String) (cmakeArgs : List String)
    (clean : Bool) : FS :=
  match extract_generator cmakeArgs with
  | none => fs
  | some g =>
    if g = "" then fs
    else if clean then
      if fs.fileExists (cmakeCachePath buildDir) || fs.dirExists (cmakeFilesPath buildDir) then
        (clean_cmake_cache_files fs buildDir).1
      else fs
    else (check_and_clean_cmake_cache fs buildDir g).1

/-! ## Platform builders: cmake arguments
(`platforms/android.py`, `platforms/linux.py`, `platforms/macos.py`). -/

/-- The ABI table of `AndroidBuilder.get_cmake_args`
(dict lookup with default `"arm64-v8a"`). -/
def androidAbiFromArch (arch : String) : String :=
  if arch = "arm64-v8a" || arch = "armeabi-v7a" || arch = "x86_64" || arch = "x86"
  then arch else "arm64-v8a"

/-- `AndroidBuilder.get_cmake_args`: raises `ValueError` when no (truthy)
toolchain is supplied, otherwise emits toolchain, ABI and platform flags. -/
def android_get_cmake_args (arch : String) (toolchain androidAbi : Option String) :
    Except String (List String) :=
  match pyTruthy toolchain with
  | none => .error "Android builds require --toolchain"
  | some tc =>
    let abi := match pyTruthy androidAbi with
      | some a => a
      | none => androidAbiFromArch arch
    .ok ["-DCMAKE_TOOLCHAIN_FILE=" ++ tc, "-DANDROID_ABI=" ++ abi,
         "-DANDROID_PLATFORM=android-21"]

/-- `LinuxBuilder.get_cmake_args`: `(args, warnings)`; native builds get no
arguments, cross builds get a toolchain flag or a system-name override plus
a warning. -/
def linux_get_cmake_args (isLinux : Bool) (toolchain : Option String) :
    List String × List String :=
  if isLinux then ([], [])
  else
    match pyTruthy toolchain with
    | some tc => (["-DCMAKE_TOOLCHAIN_FILE=" ++ tc], [])
    | none =>
      (["-DCMAKE_SYSTEM_NAME=Linux"],
       ["Cross-compiling for Linux from non-Linux system. Consider using --toolchain for better compatibility."])

/-- `MacOSBuilder.get_cmake_args`: raises `ValueError` when cross-compiling
without a toolchain; native builds select the OSX architecture. -/
def macos_get_cmake_args (arch : String) (isMacos : Bool) (toolchain : Option String) :
    Except String (List String) :=
  if isMacos then
    .ok (if arch = "arm64" then ["-DCMAKE_OSX_ARCHITECTURES=arm64"]
         else if arch = "x86_64" then ["-DCMAKE_OSX_ARCHITECTURES=x86_64"]
         else [])
  else
    match pyTruthy toolchain with
    | some tc => .ok ["-DCMAKE_TOOLCHAIN_FILE=" ++ tc]
    | none =>
      .error "Cross-compiling for macOS from non-macOS system requires --toolchain. Consider using osxcross or build on macOS directly."

/-! ## Platform builders: build-step arguments
(`get_build_args` of each builder). -/

def linux_get_build_args (jobsEnv : Option String) : List String :=
  ["-j", jobsEnv.getD "4"]

def android_get_build_args (jobsEnv : Option String) : List String :=
  ["-j", jobsEnv.getD "4"]

def macos_get_build_args (jobsEnv : Option String) : List String :=
  ["-j", jobsEnv.getD "4"]

def ios_get_build_args (jobsEnv : Option String) : List String :=
  ["-j", jobsEnv.getD "4"]

/-- `WindowsBuilder.get_build_args`: `--config Release` exactly when the
stored `_generator` is truthy and starts with `"Visual Studio"`. -/
def windows_get_build_args (generator : Option String) : List String :=
  match generator with
  | some g =>
    if g = "" then []
    else if strStartsWith g "Visual Studio" then ["--config", "Release"]
    else []
  | none => []

/-! ## Windows generator resolution
(`platforms/windows.py`). -/

/-- Outcome of one `subprocess.run` probe: the call either raises
(`TimeoutExpired`/`FileNotFoundError`) or completes with a return code
and captured stdout. -/
inductive ProcResult where
  | fails : ProcResult
  | done (returncode : Int) (stdout : String) : ProcResult
deriving DecidableEq

/-- The generator-listing text both detectors work from: `cmake -G` first,
falling back to `cmake --help` only when `cmake -G` raised; a probe that
completes with non-zero status leaves the text empty. -/
def probeOutput (g help : ProcResult) : Option String :=
  match g with
  | .done rc out => some (if rc = 0 then out else "")
  | .fails =>
    match help with
    | .done rc out => some (if rc = 0 then out else "")
    | .fails => none

/-- `WindowsBuilder._is_msys_environment`: MSYS env vars present, or
`msys`-like substrings in the lowered `PATH` or `SHELL`. -/
def is_msys_environment (environ : List (String × String)) : Bool :=
  (lookupStr "MSYSTEM" environ).isSome || (lookupStr "MSYS" environ).isSome ||
    (lookupStr "MSYS2_PATH" environ).isSome ||
  (let p := strLower ((lookupStr "PATH" environ).getD "")
   strContains p "msys64" || strContains p "msys2" || strContains p "msys") ||
  strContains (strLower ((lookupStr "SHELL" environ).getD "")) "msys"

/-- The known Visual Studio generator names, newest first. -/
def knownVsVersions : List String :=
  ["Visual Studio 19 2026", "Visual Studio 18 2025", "Visual Studio 17 2022",
   "Visual Studio 16 2019", "Visual Studio 15 2017", "Visual Studio 14 2015"]

/-- One attempted match of the regex `Visual Studio \d+ \d{4}` anchored at
the head of `l`: the literal prefix, one or more digits, a space, then
exactly four digits. -/
def matchVsAt (l : List Char) : Option (List Char) :=
  if "Visual Studio ".data.isPrefixOf l then
    let rest := l.drop ("Visual Studio ".data.length)
    let ds := rest.takeWhile Char.isDigit
    let rest2 := rest.dropWhile Char.isDigit
    if ds.isEmpty then none
    else
      match rest2 with
      | ' ' :: rest3 =>
        let ds2 := rest3.take 4
        if ds2.length = 4 && ds2.all Char.isDigit then
          some ("Visual Studio ".data ++ ds ++ [' '] ++ ds2)
        else none
      | _ => none
  else none

/-- Leftmost match of `Visual Studio \d+ \d{4}` (the first element of
`re.findall`). -/
def vsRegexFirst : List Char → Option (List Char)
  | [] => none
  | l@(_ :: t) =>
    match matchVsAt l with
    | some m => some m
    | none => vsRegexFirst t

/-- `WindowsBuilder._detect_visual_studio_generator`: probe the generator
list, try the known versions newest-first by substring, then fall back to
the first regex match. -/
def detect_visual_studio_generator (g help : ProcResult) : Option String :=
  match probeOutput g help with
  | none => none
  | some out =>
    if out = "" then none
    else
      match knownVsVersions.find? (fun v => strContains out v) with
      | some v => some v
      | none => (vsRegexFirst out.data).map String.mk

/-- `WindowsBuilder._detect_alternative_generator`: first of
MinGW Makefiles / Ninja / Unix Makefiles reported available, with
`"MinGW Makefiles"` as the hard fallback. -/
def detect_alternative_generator (g help : ProcResult) : String :=
  match probeOutput g help with
  | none => "MinGW Makefiles"
  | some out =>
    match ["MinGW Makefiles", "Ninja", "Unix Makefiles"].find?
        (fun gen => strContains out gen) with
    | some gen => gen
    | none => "MinGW Makefiles"

/-- Inputs of `WindowsBuilder.get_cmake_args`: the requested architecture,
whether `sys.platform == "win32"`, the optional `generator`/`toolchain`
keyword arguments, `os.environ`, and the results of the two cmake probes. -/
structure WinCmakeInput where
  arch : String
  isWindows : Bool
  generatorKw : Option String
  toolchainKw : Option String
  environ : List (String × String)
  cmakeG : ProcResult
  cmakeHelp : ProcResult
deriving DecidableEq

/-- Outputs of `WindowsBuilder.get_cmake_args`: the argument list, the
`warnings.warn` messages issued, and the `_generator` attribute stored for
`get_build_args`. -/
structure WinCmakeOutput where
  args : List String
  warnings : List String
  generator : Option String
deriving DecidableEq

/-- `WindowsBuilder.get_cmake_args` (`windows.py` lines 134-208). -/
def windows_get_cmake_args (inp : WinCmakeInput) : WinCmakeOutput :=
  if inp.isWindows then
    let gw : String × List String :=
      match pyTruthy inp.generatorKw with
      | some g => (g, [])
      | none =>
        if is_msys_environment inp.environ then
          let g := detect_alternative_generator inp.cmakeG inp.cmakeHelp
          if !strStartsWith g "MinGW" then
            (g, ["MSYS environment detected but MinGW generator not found. Using " ++ g ++
                 " instead. Make sure MinGW-w64 is installed and in PATH."])
          else (g, [])
        else
          match detect_visual_studio_generator inp.cmakeG inp.cmakeHelp with
          | some g => (g, [])
          | none =>
            let g := detect_alternative_generator inp.cmakeG inp.cmakeHelp
            (g, ["Visual Studio not found. Using alternative generator: " ++ g ++
                 ". For better compatibility, install Visual Studio or specify a generator with --generator."])
    let archArgs : List String :=
      if strStartsWith gw.1 "Visual Studio" then
        if inp.arch = "x86_64" then ["-A", "x64"]
        else if inp.arch = "x86" then ["-A", "Win32"]
        else []
      else []
    ⟨["-G", gw.1] ++ archArgs, gw.2, some gw.1⟩
  else
    match pyTruthy inp.toolchainKw with
    | some tc =>
      match pyTruthy inp.generatorKw with
      | some g => ⟨["-DCMAKE_TOOLCHAIN_FILE=" ++ tc, "-G", g], [], some g⟩
      | none => ⟨["-DCMAKE_TOOLCHAIN_FILE=" ++ tc], [], none⟩
    | none =>
      let g := inp.generatorKw.getD "MinGW Makefiles"
      ⟨["-G", g, "-DCMAKE_SYSTEM_NAME=Windows"],
       ["Cross-compiling for Windows from non-Windows system. Consider using --toolchain for better compatibility."],
       some g⟩

/-! ## `configure_cmake` end-to-end for the Android and Linux builders
(`build.py` lines 187-234): create the build directory, compute the
builder's cmake arguments (which may raise), run the cache-cleaning
logic, then invoke the `cmake` subprocess.  `procs` records every
subprocess invocation issued. -/

structure ConfigureOutcome where
  fs : FS
  procs : List (List String)
  result : Except String Unit

/-- The full `cmake` configure command line built at lines 218-229. -/
def cmakeConfigureCmd (buildDir : String) (cmakeArgs : List String) : List String :=
  ["cmake", "-B", buildDir, "-S", "native"] ++ cmakeArgs ++
    ["-DCMAKE_BUILD_TYPE=Release", "-DBUILD_TESTS=ON"]

/-- `configure_cmake` specialised to the Android builder.  A `ValueError`
from `get_cmake_args` propagates before any subprocess is started. -/
def configure_cmake_android (fs : FS) (buildDir arch : String)
    (toolchain androidAbi : Option String) (clean : Bool) : ConfigureOutcome :=
  let fs1 := fs.mkdir buildDir
  match android_get_cmake_args arch toolchain androidAbi with
  | .error e => ⟨fs1, [], .error e⟩
  | .ok args =>
    let fs2 := configure_clean_step fs1 buildDir args clean
    ⟨fs2, [cmakeConfigureCmd buildDir args], .ok ()⟩

/-- `configure_cmake` specialised to the Linux builder (whose
`get_cmake_args` never raises). -/
def configure_cmake_linux (fs : FS) (buildDir : String) (isLinux : Bool)
    (toolchain : Option String) (clean : Bool) : ConfigureOutcome :=
  let fs1 := fs.mkdir buildDir
  let args := (linux_get_cmake_args isLinux toolchain).1
  let fs2 := configure_clean_step fs1 buildDir args clean
  ⟨fs2, [cmakeConfigureCmd buildDir args], .ok ()⟩

/-! ## `copy_library_to_unity`, existing-target handling and copy loop
(`build.py` lines 404-448). -/

/-- One `shutil.copy(src, dst)` raises iff the destination is in
`copyFails` or the source file is missing (`FileNotFoundError ⊆ OSError`,
caught by the same handler). -/
def copyAttemptFails (fs : FS) (src dst : String) : Bool :=
  strIn dst fs.copyFails || (lookupStr src fs.files).isNone

/-- The copy retry loop (3 attempts, then a `PermissionError` naming both
paths). -/
def copyLoopGo (fs : FS) (src dst : String) : Nat → FS × Except String Unit
  | 0 => (fs, .ok ())
  | r + 1 =>
    if copyAttemptFails fs src dst then
      if r = 0 then
        (fs, .error ("Failed to copy library after 3 attempts: Source: " ++ src ++
                     " Target: " ++ dst))
      else copyLoopGo fs src dst r
    else (fs.writeFile dst ((lookupStr src fs.files).getD ""), .ok ())

/-- The artifact-copy step: when the target exists it is first removed with
5 retries; a failed removal raises a `PermissionError` naming the target,
otherwise the copy loop runs. -/
def copy_library_to_unity_step (fs : FS) (src dst : String) : FS × Except String Unit :=
  if fs.fileExists dst then
    let r := removeFileWithRetry fs dst 5
    if r.ok then copyLoopGo r.fs src dst 3
    else (r.fs, .error ("Failed to remove existing file: " ++ dst))
  else copyLoopGo fs src dst 3

/-! ## Lemmas about the association-list primitives -/

@[simp] theorem lookupStr_eraseKey_self {β : Type} (l : List (String × β)) (p : String) :
    lookupStr p (eraseKey p l) = none := by
  induction l with
  | nil => rfl
  | cons e t ih =>
    by_cases h : e.1 = p
    · simpa [eraseKey, h] using ih
    · simpa [eraseKey, lookupStr, h] using ih

theorem lookupStr_eraseKey_ne {β : Type} (l : List (String × β)) (q p : String)
    (h : q ≠ p) :
    lookupStr q (eraseKey p l) = lookupStr q l := by
  induction l with
  | nil => rfl
  | cons e t ih =>
    by_cases he : e.1 = p
    · have h' : p ≠ q := fun hc => h hc.symm
      simpa [eraseKey, lookupStr, he, h'] using ih
    · by_cases hq : e.1 = q
      · simp [eraseKey, lookupStr, he, hq, h]
      · simpa [eraseKey, lookupStr, he, hq] using ih

theorem mem_of_mem_eraseKey {β : Type} {l : List (String × β)} {p : String}
    {e : String × β} (h : e ∈ eraseKey p l) : e ∈ l ∧ e.1 ≠ p := by
  induction l with
  | nil => simp [eraseKey] at h
  | cons a t ih =>
    by_cases ha : a.1 = p
    · rw [eraseKey, if_pos ha] at h
      exact ⟨List.mem_cons_of_mem _ (ih h).1, (ih h).2⟩
    · rw [eraseKey, if_neg ha] at h
      rcases List.mem_cons.mp h with rfl | hm
      · exact ⟨List.mem_cons_self _ _, ha⟩
      · exact ⟨List.mem_cons_of_mem _ (ih hm).1, (ih hm).2⟩

/-! ## Lemmas about the filesystem primitives -/

@[simp] theorem FS.removeFile_dirs (fs : FS) (p : String) :
    (fs.removeFile p).dirs = fs.dirs := rfl

@[simp] theorem FS.removeFile_lockedFiles (fs : FS) (p : String) :
    (fs.removeFile p).lockedFiles = fs.lockedFiles := rfl

@[simp] theorem FS.removeFile_lockedDirs (fs : FS) (p : String) :
    (fs.removeFile p).lockedDirs = fs.lockedDirs := rfl

@[simp] theorem FS.removeFile_renameFails (fs : FS) (p : String) :
    (fs.removeFile p).renameFails = fs.renameFails := rfl

@[simp] theorem FS.removeFile_copyFails (fs : FS) (p : String) :
    (fs.removeFile p).copyFails = fs.copyFails := rfl

@[simp] theorem FS.removeDir_files (fs : FS) (p : String) :
    (fs.removeDir p).files = fs.files := rfl

@[simp] theorem FS.removeDir_lockedFiles (fs : FS) (p : String) :
    (fs.removeDir p).lockedFiles = fs.lockedFiles := rfl

@[simp] theorem FS.removeDir_lockedDirs (fs : FS) (p : String) :
    (fs.removeDir p).lockedDirs = fs.lockedDirs := rfl

@[simp] theorem FS.removeDir_renameFails (fs : FS) (p : String) :
    (fs.removeDir p).renameFails = fs.renameFails := rfl

@[simp] theorem FS.fileExists_removeFile_self (fs : FS) (p : String) :
    (fs.removeFile p).fileExists p = false := by
  simp [FS.removeFile, FS.fileExists]

@[simp] theorem FS.dirExists_removeDir_self (fs : FS) (p : String) :
    (fs.removeDir p).dirExists p = false := by
  simp [FS.removeDir, FS.dirExists]

@[simp] theorem FS.fileExists_removeDir (fs : FS) (p q : String) :
    (fs.removeDir p).fileExists q = fs.fileExists q := rfl

@[simp] theorem FS.dirExists_removeFile (fs : FS) (p q : String) :
    (fs.removeFile p).dirExists q = fs.dirExists q := rfl

theorem FS.lookup_removeFile_ne (fs : FS) (p q : String) (h : q ≠ p) :
    lookupStr q (fs.removeFile p).files = lookupStr q fs.files := by
  simp [FS.removeFile, lookupStr_eraseKey_ne _ _ _ h]

/-- A string is never equal to itself with `".old"` appended. -/
theorem self_ne_append_old (s : String) : s ≠ s ++ ".old" := by
  intro h
  have hd : s.data = s.data ++ ".old".data := by
    have h2 := congrArg String.data h
    cases s with
    | mk l => exact h2
  have hlen := congrArg List.length hd
  simp at hlen

/-! ## Lemmas about the retry helpers -/

/-- An absent path: success on the first attempt without sleeping. -/
theorem removeFileGo_absent (fs : FS) (p : String) (n : Nat)
    (h : fs.fileExists p = false) :
    removeFileGo fs p (n + 1) = ⟨fs, true, 1, 0⟩ := by
  rw [removeFileGo]
  simp [h]

theorem removeDirGo_absent (fs : FS) (p : String) (n : Nat)
    (h : fs.dirExists p = false) :
    removeDirGo fs p (n + 1) = ⟨fs, true, 1, 0⟩ := by
  rw [removeDirGo]
  simp [h]

/-- An unlocked path is removed on the first attempt. -/
theorem removeFileGo_not_locked (fs : FS) (p : String) (n : Nat)
    (hl : strIn p fs.lockedFiles = false) :
    removeFileGo fs p (n + 1) =
      if fs.fileExists p then ⟨fs.removeFile p, true, 1, 0⟩ else ⟨fs, true, 1, 0⟩ := by
  rw [removeFileGo]
  by_cases hex : fs.fileExists p = true
  · simp [hex, hl]
  · simp only [Bool.not_eq_true] at hex
    simp [hex]

theorem removeDirGo_not_locked (fs : FS) (p : String) (n : Nat)
    (hl : strIn p fs.lockedDirs = false) :
    removeDirGo fs p (n + 1) =
      if fs.dirExists p then ⟨fs.removeDir p, true, 1, 0⟩ else ⟨fs, true, 1, 0⟩ := by
  rw [removeDirGo]
  by_cases hex : fs.dirExists p = true
  · simp [hex, hl]
  · simp only [Bool.not_eq_true] at hex
    simp [hex]

/-- A locked path: every earlier attempt only sleeps, so the filesystem and
result come from the final attempt. -/
theorem removeFileGo_locked (fs : FS) (p : String)
    (hex : fs.fileExists p = true) (hl : strIn p fs.lockedFiles = true) (n : Nat) :
    (removeFileGo fs p (n + 1)).fs = (removeFileGo fs p (0 + 1)).fs ∧
    (removeFileGo fs p (n + 1)).ok = (removeFileGo fs p (0 + 1)).ok := by
  induction n with
  | zero => exact ⟨rfl, rfl⟩
  | succ m ih =>
    have hstep : removeFileGo fs p (m + 1 + 1) =
        ⟨(removeFileGo fs p (m + 1)).fs, (removeFileGo fs p (m + 1)).ok,
         (removeFileGo fs p (m + 1)).attempts + 1, (removeFileGo fs p (m + 1)).sleeps + 1⟩ := by
      rw [removeFileGo]
      simp [hex, hl]
    rw [hstep]
    exact ih

theorem removeDirGo_locked (fs : FS) (p : String)
    (hex : fs.dirExists p = true) (hl : strIn p fs.lockedDirs = true) (n : Nat) :
    (removeDirGo fs p (n + 1)).fs = (removeDirGo fs p (0 + 1)).fs ∧
    (removeDirGo fs p (n + 1)).ok = (removeDirGo fs p (0 + 1)).ok := by
  induction n with
  | zero => exact ⟨rfl, rfl⟩
  | succ m ih =>
    have hstep : removeDirGo fs p (m + 1 + 1) =
        ⟨(removeDirGo fs p (m + 1)).fs, (removeDirGo fs p (m + 1)).ok,
         (removeDirGo fs p (m + 1)).attempts + 1, (removeDirGo fs p (m + 1)).sleeps + 1⟩ := by
      rw [removeDirGo]
      simp [hex, hl]
    rw [hstep]
    exact ih

/-- The final attempt on a locked file: rename aside or report failure. -/
theorem removeFileGo_last (fs : FS) (p : String)
    (hex : fs.fileExists p = true) (hl : strIn p fs.lockedFiles = true) :
    removeFileGo fs p (0 + 1) =
      if strIn p fs.renameFails then ⟨fs, false, 1, 0⟩
      else ⟨fs.renameFile p (p ++ ".old"), true, 1, 0⟩ := by
  rw [removeFileGo]
  by_cases hr : strIn p fs.renameFails = true
  · simp [hex, hl, hr]
  · simp only [Bool.not_eq_true] at hr
    simp [hex, hl, hr]

/-- `_clean_cmake_cache_files` with neither path locked leaves neither the
cache file nor the intermediate directory behind. -/
theorem clean_cmake_cache_files_unlocked (fs : FS) (buildDir : String)
    (hlf : strIn (cmakeCachePath buildDir) fs.lockedFiles = false)
    (hld : strIn (cmakeFilesPath buildDir) fs.lockedDirs = false) :
    ((clean_cmake_cache_files fs buildDir).1).fileExists (cmakeCachePath buildDir) = false ∧
    ((clean_cmake_cache_files fs buildDir).1).dirExists (cmakeFilesPath buildDir) = false := by
  have h1 : removeFileWithRetry fs (cmakeCachePath buildDir) 3 =
      if fs.fileExists (cmakeCachePath buildDir) then
        ⟨fs.removeFile (cmakeCachePath buildDir), true, 1, 0⟩
      else ⟨fs, true, 1, 0⟩ :=
    removeFileGo_not_locked fs _ 2 hlf
  by_cases hex : fs.fileExists (cmakeCachePath buildDir) = true
  · rw [if_pos hex] at h1
    have hld' : strIn (cmakeFilesPath buildDir)
        (fs.removeFile (cmakeCachePath buildDir)).lockedDirs = false := by simpa using hld
    have h2 : removeDirWithRetry (fs.removeFile (cmakeCachePath buildDir))
        (cmakeFilesPath buildDir) 3 =
        if (fs.removeFile (cmakeCachePath buildDir)).dirExists (cmakeFilesPath buildDir) then
          ⟨(fs.removeFile (cmakeCachePath buildDir)).removeDir (cmakeFilesPath buildDir),
           true, 1, 0⟩
        else ⟨fs.removeFile (cmakeCachePath buildDir), true, 1, 0⟩ :=
      removeDirGo_not_locked _ _ 2 hld'
    simp only [clean_cmake_cache_files, h1, h2]
    by_cases hdx : (fs.removeFile (cmakeCachePath buildDir)).dirExists
        (cmakeFilesPath buildDir) = true
    · simp [hdx]
    · simp only [Bool.not_eq_true] at hdx
      simp [hdx]
  · simp only [Bool.not_eq_true] at hex
    rw [if_neg (by simp [hex])] at h1
    have h2 : removeDirWithRetry fs (cmakeFilesPath buildDir) 3 =
        if fs.dirExists (cmakeFilesPath buildDir) then
          ⟨fs.removeDir (cmakeFilesPath buildDir), true, 1, 0⟩
        else ⟨fs, true, 1, 0⟩ :=
      removeDirGo_not_locked fs _ 2 hld
    simp only [clean_cmake_cache_files, h1, h2]
    by_cases hdx : fs.dirExists (cmakeFilesPath buildDir) = true
    · simp [hdx, hex]
    · simp only [Bool.not_eq_true] at hdx
      simp [hdx, hex]

/-! ## Claim theorems -/

/-- C1: For every build directory and requested generator string (with
neither the cache file nor the `CMakeFiles` directory transiently locked):
if no cache file exists, `check_and_clean_cmake_cache` returns `false` and
changes nothing; if the cache file exists and its recorded generator is
absent/unparseable or differs from the requested generator, it removes the
cache file and the `CMakeFiles` directory and returns `true`; if the
recorded name equals the requested generator it returns `false` and leaves
all files untouched. -/
theorem C1_cache_invalidator (fs : FS) (buildDir gen : String)
    (hlf : strIn (cmakeCachePath buildDir) fs.lockedFiles = false)
    (hld : strIn (cmakeFilesPath buildDir) fs.lockedDirs = false) :
    (lookupStr (cmakeCachePath buildDir) fs.files = none →
      check_and_clean_cmake_cache fs buildDir gen = (fs, false)) ∧
    (∀ content, lookupStr (cmakeCachePath buildDir) fs.files = some content →
      parseCachedGenerator content ≠ some gen →
      (check_and_clean_cmake_cache fs buildDir gen).2 = true ∧
      ((check_and_clean_cmake_cache fs buildDir gen).1).fileExists
        (cmakeCachePath buildDir) = false ∧
      ((check_and_clean_cmake_cache fs buildDir gen).1).dirExists
        (cmakeFilesPath buildDir) = false) ∧
    (∀ content, lookupStr (cmakeCachePath buildDir) fs.files = some content →
      parseCachedGenerator content = some gen →
      check_and_clean_cmake_cache fs buildDir gen = (fs, false)) := by
  refine ⟨?_, ?_, ?_⟩
  · intro h
    simp [check_and_clean_cmake_cache, h]
  · intro content hc hne
    have hclean := clean_cmake_cache_files_unlocked fs buildDir hlf hld
    cases hp : parseCachedGenerator content with
    | none =>
      simp only [check_and_clean_cmake_cache, hc, hp]
      exact ⟨trivial, hclean.1, hclean.2⟩
    | some g =>
      have hg : ¬g = gen := fun hh => hne (by rw [hp, hh])
      simp only [check_and_clean_cmake_cache, hc, hp, if_neg hg]
      exact ⟨trivial, hclean.1, hclean.2⟩
  · intro content hc hp
    simp [check_and_clean_cmake_cache, hc, hp]

/-- C2 (amended): when the computed cmake arguments carry a non-empty
generator after `-G` and neither path is locked, `--clean` deletes the
cache file and the `CMakeFiles` directory regardless of any generator
match, and is a no-op when neither exists. -/
theorem C2_forced_clean (fs : FS) (buildDir : String) (args : List String) (g : String)
    (hg : extract_generator args = some g) (hne : ¬g = "")
    (hlf : strIn (cmakeCachePath buildDir) fs.lockedFiles = false)
    (hld : strIn (cmakeFilesPath buildDir) fs.lockedDirs = false) :
    ((configure_clean_step fs buildDir args true).fileExists
       (cmakeCachePath buildDir) = false ∧
     (configure_clean_step fs buildDir args true).dirExists
       (cmakeFilesPath buildDir) = false) ∧
    (fs.fileExists (cmakeCachePath buildDir) = false →
     fs.dirExists (cmakeFilesPath buildDir) = false →
     configure_clean_step fs buildDir args true = fs) := by
  have hclean := clean_cmake_cache_files_unlocked fs buildDir hlf hld
  constructor
  · by_cases hor : (fs.fileExists (cmakeCachePath buildDir) ||
        fs.dirExists (cmakeFilesPath buildDir)) = true
    · simp only [configure_clean_step, hg, if_neg hne, if_pos rfl, hor, if_true]
      exact hclean
    · simp only [Bool.or_eq_true, not_or, Bool.not_eq_true] at hor
      simp only [configure_clean_step, hg, if_neg hne, if_pos rfl, hor.1, hor.2,
        Bool.or_self, Bool.false_eq_true, if_false]
      exact ⟨hor.1, hor.2⟩
  · intro hf hd
    simp [configure_clean_step, hg, hne, hf, hd]

/-- C10: for every path absent from the filesystem, both retry helpers
report success after exactly one attempt, with no sleep and no filesystem
change. -/
theorem C10_absent_path (fs : FS) (p : String) (n : Nat)
    (hf : fs.fileExists p = false) (hd : fs.dirExists p = false) :
    removeFileWithRetry fs p (n + 1) = ⟨fs, true, 1, 0⟩ ∧
    removeDirWithRetry fs p (n + 1) = ⟨fs, true, 1, 0⟩ :=
  ⟨removeFileGo_absent fs p n hf, removeDirGo_absent fs p n hd⟩

/-- A build directory holding a cache file recording the Ninja generator
and an intermediate `CMakeFiles` directory; nothing is locked. -/
def c1fs : FS :=
  { files := [("bd/CMakeCache.txt", "CMAKE_GENERATOR:INTERNAL=Ninja\n")],
    dirs := [("bd/CMakeFiles", 7)],
    lockedFiles := [], lockedDirs := [], renameFails := [], copyFails := [] }

/-- Witness for C1: a Ninja-recording cache confronted with a Visual Studio
request is removed together with the intermediate directory, and the
invalidator reports `true`. -/
theorem C1_cache_invalidator_witness :
    lookupStr (cmakeCachePath "bd") c1fs.files =
      some "CMAKE_GENERATOR:INTERNAL=Ninja\n" ∧
    parseCachedGenerator "CMAKE_GENERATOR:INTERNAL=Ninja\n" ≠
      some "Visual Studio 17 2022" ∧
    ((check_and_clean_cmake_cache c1fs "bd" "Visual Studio 17 2022").2 = true ∧
     ((check_and_clean_cmake_cache c1fs "bd" "Visual Studio 17 2022").1).fileExists
       (cmakeCachePath "bd") = false ∧
     ((check_and_clean_cmake_cache c1fs "bd" "Visual Studio 17 2022").1).dirExists
       (cmakeFilesPath "bd") = false) :=
  ⟨by decide, by decide,
   (C1_cache_invalidator c1fs "bd" "Visual Studio 17 2022" (by decide) (by decide)).2.1
     "CMAKE_GENERATOR:INTERNAL=Ninja\n" (by decide) (by decide)⟩

/-- A build directory with a stale cache, as handed to a Linux-native
`configure_cmake` invocation. -/
def c2fs : FS :=
  { files := [("bd/CMakeCache.txt", "CMAKE_GENERATOR:INTERNAL=Ninja\n")],
    dirs := [("bd/CMakeFiles", 7), ("bd", 1)],
    lockedFiles := [], lockedDirs := [], renameFails := [], copyFails := [] }

/-- Counterexample to C2 as stated: a native-Linux configure invocation
computes no `-G` argument, so with the forced-clean flag set the cache file
and intermediate directory are left in place — they are not "deleted
regardless of whether the cached generator matches". -/
theorem C2_counterexample :
    c2fs.fileExists (cmakeCachePath "bd") = true ∧
    (configure_cmake_linux c2fs "bd" true none true).fs.fileExists
      (cmakeCachePath "bd") = true ∧
    (configure_cmake_linux c2fs "bd" true none true).fs.dirExists
      (cmakeFilesPath "bd") = true := by
  decide

/-- Witness for the amended C2: with a generator present in the arguments,
the forced clean removes both paths. -/
theorem C2_forced_clean_witness :
    extract_generator ["-G", "Ninja"] = some "Ninja" ∧
    ((configure_clean_step c2fs "bd" ["-G", "Ninja"] true).fileExists
       (cmakeCachePath "bd") = false ∧
     (configure_clean_step c2fs "bd" ["-G", "Ninja"] true).dirExists
       (cmakeFilesPath "bd") = false) :=
  ⟨by decide,
   (C2_forced_clean c2fs "bd" ["-G", "Ninja"] "Ninja" (by decide) (by decide)
     (by decide) (by decide)).1⟩

/-- An empty filesystem for the absent-path witness. -/
def c10fs : FS := ⟨[], [], [], [], [], []⟩

/-- Witness for C10 at a concrete absent path with the helpers' default
retry count of 3. -/
theorem C10_absent_path_witness :
    c10fs.fileExists "bd/CMakeCache.txt" = false ∧
    c10fs.dirExists "bd/CMakeCache.txt" = false ∧
    (removeFileWithRetry c10fs "bd/CMakeCache.txt" 3 = ⟨c10fs, true, 1, 0⟩ ∧
     removeDirWithRetry c10fs "bd/CMakeCache.txt" 3 = ⟨c10fs, true, 1, 0⟩) :=
  ⟨rfl, rfl, C10_absent_path c10fs "bd/CMakeCache.txt" 2 rfl rfl⟩

/-- Counterexample to C3 as stated: cross-compiling for the macOS target
without a toolchain file raises a `ValueError` instead of returning a
generator choice with a warning. -/
theorem C3_counterexample :
    macos_get_cmake_args "x86_64" false none =
      Except.error "Cross-compiling for macOS from non-macOS system requires --toolchain. Consider using osxcross or build on macOS directly." :=
  rfl

/-- C3 (amended): for Windows-target cross-compilation without a toolchain
file (and no pathological empty generator argument), the resolver returns a
usable non-empty generator plus a system-name override and a warning, and
never raises. -/
theorem C3_windows_cross_fallback (inp : WinCmakeInput)
    (hwin : inp.isWindows = false)
    (htc : pyTruthy inp.toolchainKw = none)
    (hg : inp.generatorKw ≠ some "") :
    ∃ g, (windows_get_cmake_args inp).generator = some g ∧ g ≠ "" ∧
      (windows_get_cmake_args inp).args = ["-G", g, "-DCMAKE_SYSTEM_NAME=Windows"] ∧
      (windows_get_cmake_args inp).warnings ≠ [] := by
  have hgen : inp.generatorKw.getD "MinGW Makefiles" ≠ "" := by
    cases hk : inp.generatorKw with
    | none => simp
    | some s =>
      rw [hk] at hg
      simp only [Option.getD_some]
      exact fun hs => hg (by rw [hs])
  refine ⟨inp.generatorKw.getD "MinGW Makefiles", ?_, hgen, ?_, ?_⟩ <;>
    simp [windows_get_cmake_args, hwin, htc]

/-- A cross-compilation input: invoking OS is not Windows, no toolchain,
no generator, and no tool access at all. -/
def c3inp : WinCmakeInput :=
  { arch := "x86_64", isWindows := false, generatorKw := none, toolchainKw := none,
    environ := [], cmakeG := .fails, cmakeHelp := .fails }

/-- Witness for the amended C3 at a concrete offline cross-compilation
request. -/
theorem C3_windows_cross_fallback_witness :
    (c3inp.isWindows = false ∧ pyTruthy c3inp.toolchainKw = none) ∧
    (∃ g, (windows_get_cmake_args c3inp).generator = some g ∧ g ≠ "" ∧
      (windows_get_cmake_args c3inp).args = ["-G", g, "-DCMAKE_SYSTEM_NAME=Windows"] ∧
      (windows_get_cmake_args c3inp).warnings ≠ []) :=
  ⟨⟨rfl, rfl⟩, C3_windows_cross_fallback c3inp rfl rfl (by decide)⟩

/-- C5 (amended): the Linux, Android, macOS and iOS builders pass
`-j <JOBS>` with `"4"` when the `JOBS` environment variable is unset; the
Windows builder passes no job count at all. -/
theorem C5_jobs (jobs : Option String) :
    linux_get_build_args jobs = ["-j", jobs.getD "4"] ∧
    android_get_build_args jobs = ["-j", jobs.getD "4"] ∧
    macos_get_build_args jobs = ["-j", jobs.getD "4"] ∧
    ios_get_build_args jobs = ["-j", jobs.getD "4"] ∧
    (jobs = none → linux_get_build_args jobs = ["-j", "4"]) ∧
    (∀ gen : Option String, "-j" ∉ windows_get_build_args gen) := by
  refine ⟨rfl, rfl, rfl, rfl, ?_, ?_⟩
  · intro h
    subst h
    rfl
  · intro gen
    cases gen with
    | none => simp [windows_get_build_args]
    | some g =>
      simp only [windows_get_build_args]
      by_cases h0 : g = ""
      · simp [h0]
      · by_cases hs : strStartsWith g "Visual Studio" = true
        · rw [if_neg h0, if_pos hs]
          decide
        · have hs' : strStartsWith g "Visual Studio" = false := by simpa using hs
          rw [if_neg h0, if_neg (by simp [hs'])]
          decide

/-- Counterexample to C5 as stated: the Windows builder's build arguments
contain no `-j` job count (and no default `"4"`) — for a Visual Studio
generator they are `--config Release`, otherwise empty. -/
theorem C5_counterexample :
    windows_get_build_args (some "Visual Studio 17 2022") = ["--config", "Release"] ∧
    "-j" ∉ windows_get_build_args (some "Visual Studio 17 2022") ∧
    windows_get_build_args (some "Ninja") = [] := by
  decide

/-- Witness for the amended C5 with `JOBS` unset. -/
theorem C5_jobs_witness :
    ((none : Option String) = none) ∧
    linux_get_build_args none = ["-j", "4"] ∧
    "-j" ∉ windows_get_build_args (some "Unix Makefiles") :=
  ⟨rfl, (C5_jobs none).2.2.2.2.1 rfl, (C5_jobs none).2.2.2.2.2 (some "Unix Makefiles")⟩

/-- C6: on native Windows with no generator argument and no MSYS
indicators, when `cmake -G` succeeds and reports "Visual Studio 17 2022"
(and no newer known Visual Studio entry), the resolver returns that
generator together with `-A x64` for the x86_64 architecture. -/
theorem C6_vs2022_resolution (inp : WinCmakeInput) (out : String)
    (hwin : inp.isWindows = true)
    (harch : inp.arch = "x86_64")
    (hgen : inp.generatorKw = none)
    (hmsys : is_msys_environment inp.environ = false)
    (hG : inp.cmakeG = ProcResult.done 0 out)
    (h17 : strContains out "Visual Studio 17 2022" = true)
    (h19 : strContains out "Visual Studio 19 2026" = false)
    (h18 : strContains out "Visual Studio 18 2025" = false) :
    (windows_get_cmake_args inp).args = ["-G", "Visual Studio 17 2022", "-A", "x64"] ∧
    (windows_get_cmake_args inp).generator = some "Visual Studio 17 2022" := by
  have hne : ¬out = "" := by
    intro h
    rw [h] at h17
    exact absurd h17 (by decide)
  have hdet : detect_visual_studio_generator inp.cmakeG inp.cmakeHelp =
      some "Visual Studio 17 2022" := by
    rw [hG]
    simp [detect_visual_studio_generator, probeOutput, hne, knownVsVersions,
      List.find?, h19, h18, h17]
  have hvs : strStartsWith "Visual Studio 17 2022" "Visual Studio" = true := by decide
  constructor <;>
    simp [windows_get_cmake_args, hwin, hgen, pyTruthy, hmsys, hdet, harch, hvs]

/-- A native Windows machine reporting Visual Studio 2022 through
`cmake -G`, with a clean (non-MSYS) environment. -/
def c6inp : WinCmakeInput :=
  { arch := "x86_64", isWindows := true, generatorKw := none, toolchainKw := none,
    environ := [("PATH", "C:/tools")],
    cmakeG := .done 0 "Visual Studio 17 2022\nNinja", cmakeHelp := .fails }

/-- Witness for C6 at a concrete generator listing. -/
theorem C6_vs2022_resolution_witness :
    (is_msys_environment c6inp.environ = false ∧
     strContains "Visual Studio 17 2022\nNinja" "Visual Studio 17 2022" = true) ∧
    ((windows_get_cmake_args c6inp).args = ["-G", "Visual Studio 17 2022", "-A", "x64"] ∧
     (windows_get_cmake_args c6inp).generator = some "Visual Studio 17 2022") :=
  ⟨⟨by decide, by decide⟩,
   C6_vs2022_resolution c6inp "Visual Studio 17 2022\nNinja" rfl rfl rfl (by decide) rfl
     (by decide) (by decide) (by decide)⟩

/-- C7: an Android configure invocation without a (truthy) toolchain
argument fails with the configuration error before any subprocess is
invoked. -/
theorem C7_android_requires_toolchain (fs : FS) (buildDir arch : String)
    (toolchain androidAbi : Option String) (clean : Bool)
    (htc : pyTruthy toolchain = none) :
    (configure_cmake_android fs buildDir arch toolchain androidAbi clean).result =
      .error "Android builds require --toolchain" ∧
    (configure_cmake_android fs buildDir arch toolchain androidAbi clean).procs = [] := by
  simp [configure_cmake_android, android_get_cmake_args, htc]

/-- Witness for C7 at a concrete toolchain-less Android request. -/
theorem C7_android_requires_toolchain_witness :
    pyTruthy none = none ∧
    ((configure_cmake_android ⟨[], [], [], [], [], []⟩ "bd" "arm64-v8a" none none
        false).result = .error "Android builds require --toolchain" ∧
     (configure_cmake_android ⟨[], [], [], [], [], []⟩ "bd" "arm64-v8a" none none
        false).procs = []) :=
  ⟨rfl, C7_android_requires_toolchain ⟨[], [], [], [], [], []⟩ "bd" "arm64-v8a" none none
    false rfl⟩

/-- C8: the Windows build-step arguments contain the `--config` flag iff
the resolved generator is a Visual-Studio-family generator, in which case
they are exactly `--config Release`; any other generator (or none at all)
yields no arguments. -/
theorem C8_config_flag (g : String) :
    (("--config" ∈ windows_get_build_args (some g)) ↔
      strStartsWith g "Visual Studio" = true) ∧
    (strStartsWith g "Visual Studio" = true →
      windows_get_build_args (some g) = ["--config", "Release"]) ∧
    (strStartsWith g "Visual Studio" = false →
      windows_get_build_args (some g) = []) ∧
    windows_get_build_args none = [] := by
  by_cases h0 : g = ""
  · have hstart0 : strStartsWith g "Visual Studio" = false := by
      rw [h0]; decide
    refine ⟨?_, ?_, fun _ => ?_, rfl⟩
    · rw [hstart0]
      simp [windows_get_build_args, h0]
    · intro h; rw [hstart0] at h; cases h
    · simp [windows_get_build_args, h0]
  · by_cases hs : strStartsWith g "Visual Studio" = true
    · refine ⟨?_, fun _ => ?_, ?_, rfl⟩
      · rw [hs]
        simp [windows_get_build_args, h0, hs]
      · simp [windows_get_build_args, h0, hs]
      · intro hf; rw [hs] at hf; cases hf
    · have hs' : strStartsWith g "Visual Studio" = false := by simpa using hs
      refine ⟨?_, ?_, fun _ => ?_, rfl⟩
      · rw [hs']
        simp [windows_get_build_args, h0, hs']
      · intro h; rw [hs'] at h; cases h
      · simp [windows_get_build_args, h0, hs']

/-- Witness for C8 at the non-Visual-Studio generator `"Ninja"`. -/
theorem C8_config_flag_witness :
    strStartsWith "Ninja" "Visual Studio" = false ∧
    windows_get_build_args (some "Ninja") = [] :=
  ⟨by decide, (C8_config_flag "Ninja").2.2.1 (by decide)⟩

/-- A copy attempt that does not raise writes the source content and
returns on the first iteration. -/
theorem copyLoopGo_not_fails (fs : FS) (src dst : String) (n : Nat)
    (h : copyAttemptFails fs src dst = false) :
    copyLoopGo fs src dst (n + 1) =
      (fs.writeFile dst ((lookupStr src fs.files).getD ""), .ok ()) := by
  rw [copyLoopGo]
  simp [h]

/-- C4 (amended): when the existing target file is deletable (or when it is
locked but can be renamed aside) the copy proceeds and overwrites it; when
the target can neither be unlinked across the 5 retries nor renamed aside,
the operation raises a permission error whose message names the locked
target path. -/
theorem C4_copy_overwrite (fs : FS) (src dst c : String) (fsL : FS) (srcL dstL : String) :
    (fs.fileExists dst = true → strIn dst fs.lockedFiles = false →
     strIn dst fs.copyFails = false → lookupStr src fs.files = some c → src ≠ dst →
     (copy_library_to_unity_step fs src dst).2 = .ok () ∧
     lookupStr dst ((copy_library_to_unity_step fs src dst).1).files = some c) ∧
    (fsL.fileExists dstL = true → strIn dstL fsL.lockedFiles = true →
     strIn dstL fsL.renameFails = true →
     copy_library_to_unity_step fsL srcL dstL =
       (fsL, .error ("Failed to remove existing file: " ++ dstL))) := by
  constructor
  · intro hex hlock hcf hsrc hne
    have h1 : removeFileWithRetry fs dst 5 = ⟨fs.removeFile dst, true, 1, 0⟩ := by
      have h := removeFileGo_not_locked fs dst 4 hlock
      rw [if_pos hex] at h
      exact h
    have hl : lookupStr src (fs.removeFile dst).files = some c := by
      rw [FS.lookup_removeFile_ne fs dst src hne]
      exact hsrc
    have hcf' : copyAttemptFails (fs.removeFile dst) src dst = false := by
      simp [copyAttemptFails, hl]
      simpa using hcf
    have h2 : copyLoopGo (fs.removeFile dst) src dst 3 =
        ((fs.removeFile dst).writeFile dst
          ((lookupStr src (fs.removeFile dst).files).getD ""), .ok ()) :=
      copyLoopGo_not_fails (fs.removeFile dst) src dst 2 hcf'
    rw [hl] at h2
    constructor
    · simp [copy_library_to_unity_step, hex, h1, h2]
    · simp [copy_library_to_unity_step, hex, h1, h2, FS.writeFile, lookupStr]
  · intro hfx hfl hfr
    have hgo := removeFileGo_locked fsL dstL hfx hfl 4
    have hlast := removeFileGo_last fsL dstL hfx hfl
    rw [if_pos hfr] at hlast
    have hok : (removeFileWithRetry fsL dstL 5).ok = false := by
      have h := hgo.2
      rw [hlast] at h
      exact h
    have hfs : (removeFileWithRetry fsL dstL 5).fs = fsL := by
      have h := hgo.1
      rw [hlast] at h
      exact h
    simp [copy_library_to_unity_step, hfx, hok, hfs]

/-- A locked-but-renamable target: the file `T` cannot be unlinked, yet its
rename aside succeeds. -/
def c4fs : FS :=
  { files := [("S", "new"), ("T", "old")], dirs := [],
    lockedFiles := ["T"], lockedDirs := [], renameFails := [], copyFails := [] }

/-- Counterexample to C4 as stated: the target `T` cannot be deleted on any
of the 5 unlink attempts (it is locked), yet the operation does not raise —
the file is renamed aside to `T.old` and the copy proceeds and succeeds. -/
theorem C4_counterexample :
    c4fs.fileExists "T" = true ∧
    strIn "T" c4fs.lockedFiles = true ∧
    (copy_library_to_unity_step c4fs "S" "T").2 = Except.ok () ∧
    lookupStr "T" ((copy_library_to_unity_step c4fs "S" "T").1).files = some "new" ∧
    lookupStr "T.old" ((copy_library_to_unity_step c4fs "S" "T").1).files = some "old" :=
  ⟨rfl, rfl, rfl, rfl, rfl⟩

/-- An existing deletable target for the witness of the amended C4. -/
def c4wfs : FS :=
  { files := [("S", "new"), ("T", "old")], dirs := [],
    lockedFiles := [], lockedDirs := [], renameFails := [], copyFails := [] }

/-- Witness for the amended C4: a deletable existing target is overwritten
with the source content and the step succeeds. -/
theorem C4_copy_overwrite_witness :
    (c4wfs.fileExists "T" = true ∧ lookupStr "S" c4wfs.files = some "new") ∧
    ((copy_library_to_unity_step c4wfs "S" "T").2 = .ok () ∧
     lookupStr "T" ((copy_library_to_unity_step c4wfs "S" "T").1).files = some "new") :=
  ⟨⟨rfl, rfl⟩,
   (C4_copy_overwrite c4wfs "S" "T" "new" c4wfs "S" "T").1 rfl rfl rfl rfl (by decide)⟩

/-- C9: when deleting a locked directory fails on every attempt, the
rename-aside fallback first destroys any pre-existing `<name>.old` backup
directory before renaming the directory aside (so the old backup's contents
are gone from the filesystem), whereas the file helper's fallback has no
such step and reports failure when its rename raises, leaving the
filesystem unchanged. -/
theorem C9_rename_aside (fs : FS) (p : String) (ip ib : Nat) (fsF : FS) (q : String) :
    (lookupStr p fs.dirs = some ip →
     lookupStr (p ++ ".old") fs.dirs = some ib →
     strIn p fs.lockedDirs = true →
     strIn (p ++ ".old") fs.lockedDirs = false →
     strIn p fs.renameFails = false →
     (∀ e ∈ fs.dirs, e.2 = ib → e.1 = p ++ ".old") →
     ib ≠ ip →
     (removeDirWithRetry fs p 3).ok = true ∧
     lookupStr (p ++ ".old") (removeDirWithRetry fs p 3).fs.dirs = some ip ∧
     (∀ e ∈ (removeDirWithRetry fs p 3).fs.dirs, e.2 ≠ ib)) ∧
    (fsF.fileExists q = true →
     strIn q fsF.lockedFiles = true →
     strIn q fsF.renameFails = true →
     (removeFileWithRetry fsF q 3).ok = false ∧
     (removeFileWithRetry fsF q 3).fs = fsF) := by
  constructor
  · intro hp hb hl hbl hren honly hib
    have hpne : p ≠ p ++ ".old" := self_ne_append_old p
    have hex : fs.dirExists p = true := by simp [FS.dirExists, hp]
    have hbex : fs.dirExists (p ++ ".old") = true := by simp [FS.dirExists, hb]
    have hgo := removeDirGo_locked fs p hex hl 2
    have hlookup2 : lookupStr p (fs.removeDir (p ++ ".old")).dirs = some ip := by
      simp only [FS.removeDir]
      rw [lookupStr_eraseKey_ne fs.dirs p (p ++ ".old") hpne]
      exact hp
    have hlast : removeDirGo fs p (0 + 1) =
        ⟨(fs.removeDir (p ++ ".old")).renameDir p (p ++ ".old"), true, 1, 0⟩ := by
      rw [removeDirGo]
      simp [hex, hl, hbex, hbl, hren]
    have hrn : (fs.removeDir (p ++ ".old")).renameDir p (p ++ ".old") =
        { fs.removeDir (p ++ ".old") with
          dirs := (p ++ ".old", ip) ::
            eraseKey (p ++ ".old") (eraseKey p (fs.removeDir (p ++ ".old")).dirs) } := by
      simp only [FS.renameDir, hlookup2]
    have hfseq : (removeDirWithRetry fs p 3).fs =
        { fs.removeDir (p ++ ".old") with
          dirs := (p ++ ".old", ip) ::
            eraseKey (p ++ ".old") (eraseKey p (fs.removeDir (p ++ ".old")).dirs) } := by
      have h := hgo.1
      rw [hlast] at h
      rw [← hrn]
      exact h
    have hokeq : (removeDirWithRetry fs p 3).ok = true := by
      have h := hgo.2
      rw [hlast] at h
      exact h
    refine ⟨hokeq, ?_, ?_⟩
    · rw [hfseq]
      simp [lookupStr]
    · intro e he
      rw [hfseq] at he
      simp only at he
      rcases List.mem_cons.mp he with rfl | hm
      · exact fun hc => hib (hc.symm)
      · have h1 := mem_of_mem_eraseKey hm
        have h2 := mem_of_mem_eraseKey h1.1
        have h3 : e ∈ fs.dirs := by
          have h2' := h2.1
          simp only [FS.removeDir] at h2'
          exact (mem_of_mem_eraseKey h2').1
        intro hc
        exact h1.2 (honly e h3 hc)
  · intro hfx hfl hfr
    have hgo := removeFileGo_locked fsF q hfx hfl 2
    have hlast := removeFileGo_last fsF q hfx hfl
    rw [if_pos hfr] at hlast
    constructor
    · have h := hgo.2
      rw [hlast] at h
      exact h
    · have h := hgo.1
      rw [hlast] at h
      exact h

/-- A locked directory `D` with a pre-existing backup `D.old` (content id 9)
that the fallback destroys. -/
def c9fs : FS :=
  { files := [], dirs := [("D", 5), ("D.old", 9)],
    lockedFiles := [], lockedDirs := ["D"], renameFails := [], copyFails := [] }

/-- A locked file whose rename aside also fails. -/
def c9fsF : FS :=
  { files := [("F", "x")], dirs := [], lockedFiles := ["F"], lockedDirs := [],
    renameFails := ["F"], copyFails := [] }

/-- Witness for C9: the pre-existing `D.old` backup (content id 9) is gone
after the fallback, replaced by the renamed `D`; the file helper fails and
leaves everything in place. -/
theorem C9_rename_aside_witness :
    (lookupStr "D" c9fs.dirs = some 5 ∧ lookupStr ("D" ++ ".old") c9fs.dirs = some 9) ∧
    ((removeDirWithRetry c9fs "D" 3).ok = true ∧
     lookupStr ("D" ++ ".old") (removeDirWithRetry c9fs "D" 3).fs.dirs = some 5 ∧
     (∀ e ∈ (removeDirWithRetry c9fs "D" 3).fs.dirs, e.2 ≠ 9)) ∧
    ((removeFileWithRetry c9fsF "F" 3).ok = false ∧
     (removeFileWithRetry c9fsF "F" 3).fs = c9fsF) :=
  ⟨⟨rfl, rfl⟩,
   (C9_rename_aside c9fs "D" 5 9 c9fsF "F").1 rfl rfl rfl rfl rfl (by decide) (by decide),
   (C9_rename_aside c9fs "D" 5 9 c9fsF "F").2 rfl rfl rfl⟩
